import Mathlib

/-!
Shallow embedding of the abaqus-mcp-server GUI automation module
(mcp_server.py).  The module drives an already-running Abaqus/CAE GUI
through an accessibility backend; all collaborator capabilities (OS
window enumeration, process introspection, the pywinauto accessibility
backend) are modelled as explicit environment records whose fields give
the observable outcome of each collaborator call, including the
possibility that a call raises an exception (modelled with Except).
The two process-wide cache globals are threaded as an explicit Cache
state, and each operation additionally returns the list of observable
collaborator actions it performed, so that properties such as "no
re-scan on the fast path" or "no control interaction after a dialog
failure" can be stated faithfully.
-/

/-- Substring matching at the head of a character list, mirroring how a
Python string comparison walks characters. -/
def chStarts : List Char → List Char → Bool
  | [], _ => true
  | _ :: _, [] => false
  | p :: ps, c :: cs => (p == c) && chStarts ps cs

/-- Substring containment on character lists: Python ` pat in s `. -/
def chSub : List Char → List Char → Bool
  | pat, [] => chStarts pat []
  | pat, c :: t => chStarts pat (c :: t) || chSub pat t

/-- Python ` pat in s ` on strings. -/
def strHasSub (s pat : String) : Bool :=
  chSub pat.toList s.toList

/-- ASCII lower-casing of one character, as Python str.lower does on the
ASCII process names this module compares. -/
def lowerChar (c : Char) : Char :=
  if c.isUpper then Char.ofNat (c.toNat + 32) else c

/-- Python s.lower(). -/
def strLower (s : String) : String :=
  String.mk (s.toList.map lowerChar)

/-- Python s.strip(): drop leading and trailing whitespace. -/
def strStrip (s : String) : String :=
  String.mk
    (((s.toList.dropWhile Char.isWhitespace).reverse.dropWhile
        Char.isWhitespace).reverse)

/-- Python sep.join(parts). -/
def joinSep (sep : String) : List String → String
  | [] => ""
  | [x] => x
  | x :: y :: t => x ++ sep ++ joinSep sep (y :: t)

/-- A single-quote character as a string, used to spell out the exact
Python message literals. -/
def apos : String := String.mk [Char.ofNat 39]

/-- Boolean success test for an Except value. -/
def isOkE {ε α : Type} : Except ε α → Bool
  | Except.ok _ => true
  | Except.error _ => false

/-- An OS top-level window as reported by pygetwindow: its title and its
native handle. -/
structure OSWin where
  title : String
  hWnd : Nat
deriving DecidableEq

/-- Outcome of resolving the owning process of a window
(win32process.GetWindowThreadProcessId followed by psutil.Process):
either a process name, one of the psutil errors that the source
explicitly catches and skips, or any other exception, which the source
does not catch. -/
inductive ProcLookup where
  | ok (name : String)
  | skipErr
  | hardErr (msg : String)
deriving DecidableEq

/-- Boolean test for the uncaught process-lookup failure. -/
def isHard : ProcLookup → Bool
  | ProcLookup.hardErr _ => true
  | _ => false

/-- Outcome of Application(backend="uia").connect(...) followed by
app.window(...), main_window.exists() and main_window.is_visible(),
all of which run inside one try/except Exception block in the source:
either some exception was raised, or the final exists/is_visible
results. -/
inductive ConnectRes where
  | err (msg : String)
  | ok (ex vis : Bool)
deriving DecidableEq

/-- The two process-wide globals abaqus_app_instance_cache and
abaqus_main_window_cache.  Application connections and windows are
identified by the native handle they were connected with. -/
structure Cache where
  appCache : Option Nat
  winCache : Option Nat
deriving DecidableEq

/-- The cleared cache state (both globals set to None). -/
def clearedCache : Cache := { appCache := none, winCache := none }

/-- Observable collaborator actions, recorded in order. -/
inductive Act where
  | enumWindows
  | connectTo (h : Nat)
  | menuSelect
  | useDialog (i : Nat)
  | setEditText (s : String)
  | clickOK
  | closeDialog
  | removeTemp (path : String)
  | scanPanes
  | scanEdits
deriving DecidableEq

/-- Environment for find_abaqus_window_and_app: the outcome of each
collaborator call it can make. -/
structure FindEnv where
  cachedExists : Except String Bool
  cachedVisible : Except String Bool
  enumRes : Except String (List OSWin)
  procOf : Nat → ProcLookup
  connect : Nat → ConnectRes

/-- Title filter from the source: win_ref.title.startswith("Abaqus/CAE"). -/
def titleOk (w : OSWin) : Bool :=
  chStarts "Abaqus/CAE".toList w.title.toList

/-- Process-name filter from the source: "abaqus" in proc.name().lower()
and ("cae" in ... or "viewer" in ...). -/
def procNameOk (name : String) : Bool :=
  strHasSub (strLower name) "abaqus" &&
    (strHasSub (strLower name) "cae" || strHasSub (strLower name) "viewer")

/-- A window that would be selected by the discovery loop: title prefix
matches and the owning process resolves with a conforming name. -/
def goodWin (env : FindEnv) (w : OSWin) : Bool :=
  titleOk w &&
    (match env.procOf w.hWnd with
     | ProcLookup.ok n => procNameOk n
     | _ => false)

/-- The candidate-selection loop of find_abaqus_window_and_app (source
lines 48-58): walk the enumerated windows in order; skip windows whose
title lacks the prefix; for a prefixed window, resolve the process,
skipping it on the three caught psutil errors, propagating any other
exception, and select the window on the first conforming process name. -/
def selectCandidate (env : FindEnv) : List OSWin → Except String (Option OSWin)
  | [] => Except.ok none
  | w :: ws =>
    if titleOk w then
      match env.procOf w.hWnd with
      | ProcLookup.hardErr m => Except.error m
      | ProcLookup.skipErr => selectCandidate env ws
      | ProcLookup.ok n =>
        if procNameOk n then Except.ok (some w) else selectCandidate env ws
    else selectCandidate env ws

/-- The connection phase of find_abaqus_window_and_app (source lines
60-72): connect to the selected window; on any exception, or when the
connected window fails exists/is_visible, return (None, None) with the
cache left cleared; otherwise store and return the new pair. -/
def connectPhase (env : FindEnv) (w : OSWin) :
    Except String (Option Nat × Option Nat) × Cache × List Act :=
  match env.connect w.hWnd with
  | ConnectRes.err _ =>
    (Except.ok (none, none), clearedCache, [Act.enumWindows, Act.connectTo w.hWnd])
  | ConnectRes.ok ex vis =>
    if ex && vis then
      (Except.ok (some w.hWnd, some w.hWnd),
        { appCache := some w.hWnd, winCache := some w.hWnd },
        [Act.enumWindows, Act.connectTo w.hWnd])
    else
      (Except.ok (none, none), clearedCache, [Act.enumWindows, Act.connectTo w.hWnd])

/-- The cold (re)discovery path of find_abaqus_window_and_app (source
lines 43-72): clear both cache globals, enumerate windows, select the
first conforming candidate and try to connect to it.  An exception from
the enumeration or an uncaught process-lookup exception propagates with
the cache already cleared. -/
def findCold (env : FindEnv) :
    Except String (Option Nat × Option Nat) × Cache × List Act :=
  match env.enumRes with
  | Except.error m => (Except.error m, clearedCache, [Act.enumWindows])
  | Except.ok wins =>
    match selectCandidate env wins with
    | Except.error m => (Except.error m, clearedCache, [Act.enumWindows])
    | Except.ok none => (Except.ok (none, none), clearedCache, [Act.enumWindows])
    | Except.ok (some w) => connectPhase env w

/-- find_abaqus_window_and_app (source lines 21-72).  The fast path
returns the cached pair when both globals are set and the cached window
passes exists() and then is_visible(); an exception from either check
propagates (there is no try/except around them) with the cache
untouched; any other outcome falls to the cold path. -/
def find_abaqus_window_and_app (env : FindEnv) (c : Cache) :
    Except String (Option Nat × Option Nat) × Cache × List Act :=
  match c.appCache, c.winCache with
  | some a, some w =>
    (match env.cachedExists with
     | Except.error m => (Except.error m, c, [])
     | Except.ok false => findCold env
     | Except.ok true =>
       match env.cachedVisible with
       | Except.error m => (Except.error m, c, [])
       | Except.ok false => findCold env
       | Except.ok true => (Except.ok (some a, some w), c, []))
  | _, _ => findCold env

/-- A window as seen by the dialog-identification tiers: whether
exists() holds, its window_text(), and an identity used to key later
control interaction. -/
structure Dlg where
  ex : Bool
  title : String
  id : Nat
deriving DecidableEq

/-- The dialog acceptance check used by all three tiers (source lines
128-129, 135-136, 144): the candidate exists and its window text
contains "Run Script" or "Select file". -/
def dialogAccept (d : Dlg) : Bool :=
  d.ex && (strHasSub d.title "Run Script" || strHasSub d.title "Select file")

/-- Outcome of the whole control-interaction block (source lines
155-207): either the text control and confirm button were resolved, the
path typed and the button clicked, or some step raised, in which case
the source records whether the dialog still exists for its best-effort
close. -/
inductive CtrlOutcome where
  | ok
  | fail (msg : String) (dlgStillExists : Bool)
deriving DecidableEq

/-- An exception as classified by the outer handlers of execute_script:
timings.TimeoutError versus any other Exception. -/
inductive PyExn where
  | timeout (msg : String)
  | error (msg : String)
deriving DecidableEq

/-- Environment for execute_script: the find environment plus the
outcome of each collaborator call of the operation body. -/
structure ExecEnv where
  fenv : FindEnv
  mainExists : Except String Bool
  tmpFile : Except PyExn String
  menuPhase : Option PyExn
  topWindow : Except String Dlg
  activeWindow : Except String Dlg
  childWindows : Except String (List Dlg)
  ctrl : Nat → CtrlOutcome
  fileStillThere : Bool

/-- Python path.replace("/", "\\") before typing into the dialog; the
pattern is a single character, so the replacement is character-wise. -/
def toBackslashes (p : String) : String :=
  String.mk (p.toList.map (fun c => if c == '/' then Char.ofNat 92 else c))

def notFoundMsgExec : String :=
  "Abaqus/CAE window not found. Please ensure Abaqus/CAE with GUI is running and not minimized initially."

def dialogNotFoundExn : String :=
  apos ++ "Run Script" ++ apos ++ " dialog not found or title mismatch after menu click."

def failDialogMsg (m : String) : String :=
  "Failed to find or identify the " ++ apos ++ "Run Script" ++ apos ++ " dialog: " ++ m

def failInteractMsg (m : String) : String :=
  "Failed to interact with " ++ apos ++ "Run Script" ++ apos ++
    " dialog (e.g., input script path or click OK): " ++ m

def successMsg (p : String) : String :=
  "Script submitted for execution via File->Run Script: " ++ p

def timeoutMsg (m : String) : String :=
  "Timeout occurred during GUI operation: " ++ m

def mainErrMsg (m : String) : String :=
  "An error occurred during script execution attempt: " ++ m

/-- The three-tier dialog identification of execute_script (source
lines 125-150), all inside one try block: tier 1 is app.top_window(),
tier 2 app.active(), tier 3 the first acceptable entry of the visible
child windows of the main window; a raise in any tier aborts the whole
search (it is caught by the surrounding handler). -/
def pickDialog (env : ExecEnv) : Except String (Option Dlg) :=
  match env.topWindow with
  | Except.error m => Except.error m
  | Except.ok d1 =>
    if dialogAccept d1 then Except.ok (some d1)
    else
      match env.activeWindow with
      | Except.error m => Except.error m
      | Except.ok d2 =>
        if dialogAccept d2 then Except.ok (some d2)
        else
          match env.childWindows with
          | Except.error m => Except.error m
          | Except.ok ds => Except.ok (ds.find? dialogAccept)

/-- The finally block of execute_script (source lines 217-221): when a
temporary file path exists on disk, attempt to remove it (best-effort;
a failed removal only prints a warning). -/
def finallyActs (env : ExecEnv) (p : String) : List Act :=
  if env.fileStillThere then [Act.removeTemp p] else []

/-- execute_script (source lines 78-221), as a function of the
environment and the incoming cache state, returning the propagated
exception or the result string, the outgoing cache state and the action
trace.  Structure: acquire the session (exceptions propagate), re-check
the window (exceptions propagate, a falsy result clears the cache and
returns the not-found message), then the try block: temporary-file
creation, focus/menu automation (whose exceptions reach the outer
handlers, which clear the cache), dialog identification and control
interaction (whose failures return error strings without touching the
cache), with the finally block deleting the temporary file on every
path on which it was created. -/
def execute_script (env : ExecEnv) (c : Cache) :
    Except String String × Cache × List Act :=
  let fr := find_abaqus_window_and_app env.fenv c
  match fr.1 with
  | Except.error m => (Except.error m, fr.2.1, fr.2.2)
  | Except.ok pair =>
    match pair.2 with
    | none => (Except.ok notFoundMsgExec, clearedCache, fr.2.2)
    | some _ =>
      match env.mainExists with
      | Except.error m => (Except.error m, fr.2.1, fr.2.2)
      | Except.ok false => (Except.ok notFoundMsgExec, clearedCache, fr.2.2)
      | Except.ok true =>
        match env.tmpFile with
        | Except.error (PyExn.timeout m) =>
          (Except.ok (timeoutMsg m), clearedCache, fr.2.2)
        | Except.error (PyExn.error m) =>
          (Except.ok (mainErrMsg m), clearedCache, fr.2.2)
        | Except.ok p =>
          match env.menuPhase with
          | some (PyExn.timeout m) =>
            (Except.ok (timeoutMsg m), clearedCache,
              fr.2.2 ++ [Act.menuSelect] ++ finallyActs env p)
          | some (PyExn.error m) =>
            (Except.ok (mainErrMsg m), clearedCache,
              fr.2.2 ++ [Act.menuSelect] ++ finallyActs env p)
          | none =>
            match pickDialog env with
            | Except.error m =>
              (Except.ok (failDialogMsg m), fr.2.1,
                fr.2.2 ++ [Act.menuSelect] ++ finallyActs env p)
            | Except.ok none =>
              (Except.ok (failDialogMsg dialogNotFoundExn), fr.2.1,
                fr.2.2 ++ [Act.menuSelect] ++ finallyActs env p)
            | Except.ok (some d) =>
              match env.ctrl d.id with
              | CtrlOutcome.ok =>
                (Except.ok (successMsg p), fr.2.1,
                  fr.2.2 ++
                    [Act.menuSelect, Act.useDialog d.id,
                      Act.setEditText (toBackslashes p), Act.clickOK] ++
                    finallyActs env p)
              | CtrlOutcome.fail m stillEx =>
                (Except.ok (failInteractMsg m), fr.2.1,
                  fr.2.2 ++ [Act.menuSelect, Act.useDialog d.id] ++
                    (if stillEx then [Act.closeDialog] else []) ++
                    finallyActs env p)

/-- A control found in the accessibility tree, with the properties the
log-scraping heuristics query: visibility, geometry, class name,
editability, the nested texts() result, the result of the later
exists() re-check and the window_text() fallback. -/
structure Ctl where
  id : Nat
  visible : Bool
  height : Int
  width : Int
  className : String
  editable : Bool
  texts : List (List String)
  stillExists : Bool
  winText : String
deriving DecidableEq

/-- Message of the Python TypeError raised at source lines 273 and 288:
the source reads rectangle().height without calling it (contrast
rectangle().width() on the same line, and the repo test, which mocks
height as a callable), so comparing the bound method with an integer
raises instead of testing the height. -/
def heightTypeError : String :=
  apos ++ ">" ++ apos ++ " not supported between instances of " ++ apos ++
    "method" ++ apos ++ " and " ++ apos ++ "int" ++ apos

/-- Heuristic 1 of get_abaqus_message_log (source lines 270-281): walk
the descendant panes in order; an invisible pane short-circuits the
conjunction at line 273 and is skipped, but the first visible pane
reaches the comparison of the uncalled rectangle().height bound method
with 100, which raises, so the width, class-name and text filters are
never evaluated and no pane is ever selected. -/
def paneHeuristic : List Ctl → Except String (Option Ctl)
  | [] => Except.ok none
  | p :: ps =>
    if p.visible then Except.error heightTypeError
    else paneHeuristic ps

/-- Heuristic 2 of get_abaqus_message_log (source lines 285-292): the
same flaw at line 288; the first visible, non-editable edit control
reaches the uncalled rectangle().height comparison and raises, every
other edit is skipped, and no edit is ever selected. -/
def editHeuristic : List Ctl → Except String (Option Ctl)
  | [] => Except.ok none
  | e :: es =>
    if e.visible && !e.editable then Except.error heightTypeError
    else editHeuristic es

/-- The line-collection loops of get_abaqus_message_log (source lines
299-305): keep non-empty groups, and within them keep non-empty lines,
in order. -/
def flattenLines : List (List String) → List String
  | [] => []
  | g :: gs =>
    (if g.isEmpty then [] else g.filter (fun l => !(l == ""))) ++ flattenLines gs

/-- The full text flattening (source lines 299-307): join the kept
lines with newlines and strip the result. -/
def flattenTexts (ts : List (List String)) : String :=
  strStrip (joinSep "\n" (flattenLines ts))

def notFoundMsgLog : String :=
  "Abaqus/CAE window not found. Cannot retrieve message log."

def logHeader (content : String) : String :=
  "Message Log Content (best effort extraction):\n------------------------\n" ++
    content ++ "\n------------------------"

def scrapeEmptyMsg : String :=
  "Found a potential message area UI element, but could not extract text content. The control might be custom, empty, or text extraction method failed. More specific inspect details are needed."

def scrapeNotFoundMsg : String :=
  "Message area UI element not found using current heuristics. For reliable message log retrieval, please use an inspect tool to identify the specific properties (e.g., AutomationId, Name, ClassName) of the Abaqus message area and update this function" ++ apos ++ "s search logic."

def logErrMsg (m : String) : String :=
  "An error occurred while trying to retrieve the Abaqus message log: " ++ m

/-- Text extraction from a selected control (source lines 298-316):
re-check exists(), flatten texts(), fall back to window_text().strip()
when that is empty, and distinguish the extracted-content, the
empty-content and the stale-control outcomes. -/
def extractFrom (ctl : Ctl) : String :=
  if ctl.stillExists then
    let c0 := flattenTexts ctl.texts
    let c1 := if c0 == "" then strStrip ctl.winText else c0
    if c1 == "" then scrapeEmptyMsg else logHeader c1
  else scrapeNotFoundMsg

/-- Environment for get_abaqus_message_log: the find environment plus
the outcome of the window re-check and of the two descendant scans. -/
structure LogEnv where
  fenv : FindEnv
  mainExists : Except String Bool
  panes : Except String (List Ctl)
  edits : Except String (List Ctl)

/-- get_abaqus_message_log (source lines 227-325): acquire the session
(exceptions propagate), re-check the window, then inside the try block
run heuristic 1 and, only when it selected nothing, heuristic 2;
exceptions inside the try are converted to a string with the cache
cleared. -/
def get_abaqus_message_log (env : LogEnv) (c : Cache) :
    Except String String × Cache × List Act :=
  let fr := find_abaqus_window_and_app env.fenv c
  match fr.1 with
  | Except.error m => (Except.error m, fr.2.1, fr.2.2)
  | Except.ok pair =>
    match pair.2 with
    | none => (Except.ok notFoundMsgLog, clearedCache, fr.2.2)
    | some _ =>
      match env.mainExists with
      | Except.error m => (Except.error m, fr.2.1, fr.2.2)
      | Except.ok false => (Except.ok notFoundMsgLog, clearedCache, fr.2.2)
      | Except.ok true =>
        match env.panes with
        | Except.error m =>
          (Except.ok (logErrMsg m), clearedCache, fr.2.2 ++ [Act.scanPanes])
        | Except.ok ps =>
          match paneHeuristic ps with
          | Except.error m =>
            (Except.ok (logErrMsg m), clearedCache, fr.2.2 ++ [Act.scanPanes])
          | Except.ok (some ctl) =>
            (Except.ok (extractFrom ctl), fr.2.1, fr.2.2 ++ [Act.scanPanes])
          | Except.ok none =>
            match env.edits with
            | Except.error m =>
              (Except.ok (logErrMsg m), clearedCache,
                fr.2.2 ++ [Act.scanPanes, Act.scanEdits])
            | Except.ok es =>
              match editHeuristic es with
              | Except.error m =>
                (Except.ok (logErrMsg m), clearedCache,
                  fr.2.2 ++ [Act.scanPanes, Act.scanEdits])
              | Except.ok (some ctl) =>
                (Except.ok (extractFrom ctl), fr.2.1,
                  fr.2.2 ++ [Act.scanPanes, Act.scanEdits])
              | Except.ok none =>
                (Except.ok scrapeNotFoundMsg, fr.2.1,
                  fr.2.2 ++ [Act.scanPanes, Act.scanEdits])

/-- Actions that interact with the submission dialog controls (typing
the path, clicking the confirm button, the best-effort close). -/
def isCtrlAct : Act → Bool
  | Act.useDialog _ => true
  | Act.setEditText _ => true
  | Act.clickOK => true
  | Act.closeDialog => true
  | _ => false

/-- The two cache globals are either both set or both cleared. -/
def cacheSync (c : Cache) : Bool :=
  c.appCache.isSome == c.winCache.isSome

/-- A conforming Abaqus/CAE top-level window used in concrete runs. -/
def wGood : OSWin := { title := "Abaqus/CAE 2024 - Model-1", hWnd := 7 }

/-- A window whose title matches but whose process lacks both variant
markers. -/
def wWrongProc : OSWin := { title := "Abaqus/CAE Viewer Manual", hWnd := 4 }

/-- A window whose title does not carry the prefix. -/
def wOtherTitle : OSWin := { title := "Notepad", hWnd := 9 }

/-- A find environment with a valid cached session and, on the cold
path, no enumerated windows. -/
def fenvFast : FindEnv :=
  { cachedExists := Except.ok true
    cachedVisible := Except.ok true
    enumRes := Except.ok []
    procOf := fun _ => ProcLookup.skipErr
    connect := fun _ => ConnectRes.err "unused" }

/-- A find environment that discovers wGood behind two rejected
candidates. -/
def fenvDiscover : FindEnv :=
  { cachedExists := Except.ok false
    cachedVisible := Except.ok true
    enumRes := Except.ok [wOtherTitle, wWrongProc, wGood]
    procOf := fun h =>
      if h == 4 then ProcLookup.ok "explorer.exe"
      else if h == 7 then ProcLookup.ok "abaqus_cae.exe"
      else ProcLookup.skipErr
    connect := fun _ => ConnectRes.ok true true }

/-- A find environment whose cached-window exists() check raises. -/
def fenvRaise : FindEnv :=
  { cachedExists := Except.error "backend failure"
    cachedVisible := Except.ok true
    enumRes := Except.ok []
    procOf := fun _ => ProcLookup.skipErr
    connect := fun _ => ConnectRes.err "unused" }

/-- A cache with both globals populated with handle 7. -/
def cacheBoth : Cache := { appCache := some 7, winCache := some 7 }

/-- An execute_script environment for a fully successful run. -/
def eenvOk : ExecEnv :=
  { fenv := fenvFast
    mainExists := Except.ok true
    tmpFile := Except.ok "C:/tmp/s.py"
    menuPhase := none
    topWindow := Except.ok { ex := true, title := "Run Script", id := 3 }
    activeWindow := Except.ok { ex := false, title := "", id := 0 }
    childWindows := Except.ok []
    ctrl := fun _ => CtrlOutcome.ok
    fileStillThere := true }

/-- An execute_script environment in which every dialog tier rejects. -/
def eenvNoDialog : ExecEnv :=
  { fenv := fenvFast
    mainExists := Except.ok true
    tmpFile := Except.ok "C:/tmp/s.py"
    menuPhase := none
    topWindow := Except.ok { ex := true, title := "Abaqus/CAE 2024", id := 1 }
    activeWindow := Except.ok { ex := true, title := "Abaqus/CAE 2024", id := 1 }
    childWindows := Except.ok []
    ctrl := fun _ => CtrlOutcome.ok
    fileStillThere := true }

/-- An execute_script environment whose session acquisition raises. -/
def eenvRaise : ExecEnv :=
  { fenv := fenvRaise
    mainExists := Except.ok true
    tmpFile := Except.ok "C:/tmp/s.py"
    menuPhase := none
    topWindow := Except.ok { ex := true, title := "Run Script", id := 3 }
    activeWindow := Except.ok { ex := false, title := "", id := 0 }
    childWindows := Except.ok []
    ctrl := fun _ => CtrlOutcome.ok
    fileStillThere := true }

/-- A get_abaqus_message_log environment with no candidate controls. -/
def lenvEmpty : LogEnv :=
  { fenv := fenvFast
    mainExists := Except.ok true
    panes := Except.ok []
    edits := Except.ok [] }

/-- A get_abaqus_message_log environment whose session acquisition
raises. -/
def lenvRaise : LogEnv :=
  { fenv := fenvRaise
    mainExists := Except.ok true
    panes := Except.ok []
    edits := Except.ok [] }

/-- A pane satisfying every pane filter the specification documents:
visible, tall, wide, FXWindow class marker, non-blank nested text (the
shape the repo test mocks). -/
def bigPane : Ctl :=
  { id := 11
    visible := true
    height := 150
    width := 300
    className := "SomeFXWindow"
    editable := false
    texts := [["Line 1", "Line 2"], ["", "Line 3"]]
    stillExists := true
    winText := "" }

/-- A get_abaqus_message_log environment whose pane scan reports
exactly bigPane. -/
def lenvBigPane : LogEnv :=
  { fenv := fenvFast
    mainExists := Except.ok true
    panes := Except.ok [bigPane]
    edits := Except.ok [] }

lemma flattenLines_eq (ts : List (List String)) :
    flattenLines ts =
      ((ts.filter (fun g => !g.isEmpty)).flatten).filter (fun l => !(l == "")) := by
  induction ts with
  | nil => rfl
  | cons g gs ih =>
    by_cases hg : g.isEmpty
    · simp [flattenLines, hg, ih]
    · simp [flattenLines, hg, ih, List.filter_append]

lemma paneHeuristic_never_selects (ps : List Ctl) (ctl : Ctl) :
    paneHeuristic ps ≠ Except.ok (some ctl) := by
  induction ps with
  | nil => simp [paneHeuristic]
  | cons p ps ih =>
    by_cases hv : p.visible = true <;> simp [paneHeuristic, hv, ih]

lemma editHeuristic_never_selects (es : List Ctl) (ctl : Ctl) :
    editHeuristic es ≠ Except.ok (some ctl) := by
  induction es with
  | nil => simp [editHeuristic]
  | cons e es ih =>
    by_cases hv : (e.visible && !e.editable) = true <;> simp [editHeuristic, hv, ih]

lemma enum_mem_findCold (env : FindEnv) : Act.enumWindows ∈ (findCold env).2.2 := by
  rcases he : env.enumRes with m | wins
  · simp [findCold, he]
  · rcases hs : selectCandidate env wins with m | w?
    · simp [findCold, he, hs]
    · rcases w? with _ | w
      · simp [findCold, he, hs]
      · rcases hc : env.connect w.hWnd with m | ⟨ex, vis⟩
        · simp [findCold, he, hs, connectPhase, hc]
        · by_cases hev : (ex && vis) = true <;>
            simp [findCold, he, hs, connectPhase, hc, hev]

lemma no_ctrl_findCold (env : FindEnv) (x : Act) (hx : x ∈ (findCold env).2.2) :
    isCtrlAct x = false := by
  rcases he : env.enumRes with m | wins
  · simp [findCold, he] at hx
    simp [hx, isCtrlAct]
  · rcases hs : selectCandidate env wins with m | w?
    · simp [findCold, he, hs] at hx
      simp [hx, isCtrlAct]
    · rcases w? with _ | w
      · simp [findCold, he, hs] at hx
        simp [hx, isCtrlAct]
      · rcases hc : env.connect w.hWnd with m | ⟨ex, vis⟩
        · simp [findCold, he, hs, connectPhase, hc] at hx
          rcases hx with hx | hx <;> simp [hx, isCtrlAct]
        · by_cases hev : (ex && vis) = true <;>
            · simp [findCold, he, hs, connectPhase, hc, hev] at hx
              rcases hx with hx | hx <;> simp [hx, isCtrlAct]

lemma no_ctrl_find (env : FindEnv) (c : Cache) (x : Act)
    (hx : x ∈ (find_abaqus_window_and_app env c).2.2) :
    isCtrlAct x = false := by
  rcases c with ⟨a?, w?⟩
  rcases a? with _ | a <;> rcases w? with _ | w
  · exact no_ctrl_findCold env x hx
  · exact no_ctrl_findCold env x hx
  · exact no_ctrl_findCold env x hx
  · rcases hce : env.cachedExists with m | b
    · simp [find_abaqus_window_and_app, hce] at hx
    · rcases b with _ | _
      · rw [show (find_abaqus_window_and_app env ⟨some a, some w⟩).2.2 = (findCold env).2.2 by
            simp [find_abaqus_window_and_app, hce]] at hx
        exact no_ctrl_findCold env x hx
      · rcases hcv : env.cachedVisible with m | b2
        · simp [find_abaqus_window_and_app, hce, hcv] at hx
        · rcases b2 with _ | _
          · rw [show (find_abaqus_window_and_app env ⟨some a, some w⟩).2.2 = (findCold env).2.2 by
                simp [find_abaqus_window_and_app, hce, hcv]] at hx
            exact no_ctrl_findCold env x hx
          · simp [find_abaqus_window_and_app, hce, hcv] at hx

lemma selectCandidate_no_hard (env : FindEnv) (wins : List OSWin)
    (hnh : ∀ w ∈ wins, isHard (env.procOf w.hWnd) = false) :
    selectCandidate env wins = Except.ok (wins.find? (goodWin env)) := by
  induction wins with
  | nil => rfl
  | cons w ws ih =>
    have hw : isHard (env.procOf w.hWnd) = false := hnh w (List.mem_cons_self w ws)
    have ihs : selectCandidate env ws = Except.ok (ws.find? (goodWin env)) :=
      ih (fun x hx => hnh x (List.mem_cons_of_mem w hx))
    simp only [selectCandidate, List.find?, goodWin]
    by_cases ht : titleOk w
    · rcases hp : env.procOf w.hWnd with n | _ | m
      · by_cases hn : procNameOk n = true <;> simp [ht, hp, hn, ihs, goodWin]
      · simp [ht, hp, ihs, goodWin]
      · rw [hp] at hw
        simp [isHard] at hw
    · simp [ht, ihs, goodWin, Bool.false_and]

lemma exec_isOk (ee : ExecEnv) (c : Cache)
    (h1 : isOkE (find_abaqus_window_and_app ee.fenv c).1 = true)
    (h2 : isOkE ee.mainExists = true) :
    isOkE (execute_script ee c).1 = true := by
  rcases hfr : (find_abaqus_window_and_app ee.fenv c).1 with m | ⟨a?, w?⟩
  · rw [hfr] at h1
    simp [isOkE] at h1
  · rcases w? with _ | w
    · simp [execute_script, hfr, isOkE]
    · rcases hme : ee.mainExists with m | b
      · rw [hme] at h2
        simp [isOkE] at h2
      · rcases b with _ | _
        · simp [execute_script, hfr, hme, isOkE]
        · rcases htf : ee.tmpFile with e | p
          · rcases e with m | m <;> simp [execute_script, hfr, hme, htf, isOkE]
          · rcases hmp : ee.menuPhase with _ | e
            · rcases hpd : pickDialog ee with m | d?
              · simp [execute_script, hfr, hme, htf, hmp, hpd, isOkE]
              · rcases d? with _ | d
                · simp [execute_script, hfr, hme, htf, hmp, hpd, isOkE]
                · rcases hct : ee.ctrl d.id with _ | ⟨m, st⟩ <;>
                    simp [execute_script, hfr, hme, htf, hmp, hpd, hct, isOkE]
            · rcases e with m | m <;> simp [execute_script, hfr, hme, htf, hmp, isOkE]

lemma log_isOk (le : LogEnv) (c : Cache)
    (h1 : isOkE (find_abaqus_window_and_app le.fenv c).1 = true)
    (h2 : isOkE le.mainExists = true) :
    isOkE (get_abaqus_message_log le c).1 = true := by
  rcases hfr : (find_abaqus_window_and_app le.fenv c).1 with m | ⟨a?, w?⟩
  · rw [hfr] at h1
    simp [isOkE] at h1
  · rcases w? with _ | w
    · simp [get_abaqus_message_log, hfr, isOkE]
    · rcases hme : le.mainExists with m | b
      · rw [hme] at h2
        simp [isOkE] at h2
      · rcases b with _ | _
        · simp [get_abaqus_message_log, hfr, hme, isOkE]
        · rcases hps : le.panes with m | ps
          · simp [get_abaqus_message_log, hfr, hme, hps, isOkE]
          · rcases hph : paneHeuristic ps with m | ctl?
            · simp [get_abaqus_message_log, hfr, hme, hps, hph, isOkE]
            · rcases ctl? with _ | ctl
              · rcases hes : le.edits with m | es
                · simp [get_abaqus_message_log, hfr, hme, hps, hph, hes, isOkE]
                · rcases heh : editHeuristic es with m | ctl?
                  · simp [get_abaqus_message_log, hfr, hme, hps, hph, hes, heh, isOkE]
                  · rcases ctl? with _ | ctl <;>
                      simp [get_abaqus_message_log, hfr, hme, hps, hph, hes, heh, isOkE]
              · simp [get_abaqus_message_log, hfr, hme, hps, hph, isOkE]

lemma sync_findCold (env : FindEnv) : cacheSync (findCold env).2.1 = true := by
  rcases he : env.enumRes with m | wins
  · simp [findCold, he, cacheSync, clearedCache]
  · rcases hs : selectCandidate env wins with m | w?
    · simp [findCold, he, hs, cacheSync, clearedCache]
    · rcases w? with _ | w
      · simp [findCold, he, hs, cacheSync, clearedCache]
      · rcases hc : env.connect w.hWnd with m | ⟨ex, vis⟩
        · simp [findCold, he, hs, connectPhase, hc, cacheSync, clearedCache]
        · by_cases hev : (ex && vis) = true <;>
            simp [findCold, he, hs, connectPhase, hc, hev, cacheSync, clearedCache]

lemma sync_find (env : FindEnv) (c : Cache) :
    cacheSync (find_abaqus_window_and_app env c).2.1 = true := by
  rcases c with ⟨a?, w?⟩
  rcases a? with _ | a <;> rcases w? with _ | w
  · exact sync_findCold env
  · exact sync_findCold env
  · exact sync_findCold env
  · rcases hce : env.cachedExists with m | b
    · simp [find_abaqus_window_and_app, hce, cacheSync]
    · rcases b with _ | _
      · simpa [find_abaqus_window_and_app, hce] using sync_findCold env
      · rcases hcv : env.cachedVisible with m | b2
        · simp [find_abaqus_window_and_app, hce, hcv, cacheSync]
        · rcases b2 with _ | _
          · simpa [find_abaqus_window_and_app, hce, hcv] using sync_findCold env
          · simp [find_abaqus_window_and_app, hce, hcv, cacheSync]

lemma sync_exec (ee : ExecEnv) (c : Cache) :
    cacheSync (execute_script ee c).2.1 = true := by
  have hsf := sync_find ee.fenv c
  rcases hfr : (find_abaqus_window_and_app ee.fenv c).1 with m | ⟨a?, w?⟩
  · simpa [execute_script, hfr] using hsf
  · rcases w? with _ | w
    · simp [execute_script, hfr, cacheSync, clearedCache]
    · rcases hme : ee.mainExists with m | b
      · simpa [execute_script, hfr, hme] using hsf
      · rcases b with _ | _
        · simp [execute_script, hfr, hme, cacheSync, clearedCache]
        · rcases htf : ee.tmpFile with e | p
          · rcases e with m | m <;>
              simp [execute_script, hfr, hme, htf, cacheSync, clearedCache]
          · rcases hmp : ee.menuPhase with _ | e
            · rcases hpd : pickDialog ee with m | d?
              · simpa [execute_script, hfr, hme, htf, hmp, hpd] using hsf
              · rcases d? with _ | d
                · simpa [execute_script, hfr, hme, htf, hmp, hpd] using hsf
                · rcases hct : ee.ctrl d.id with _ | ⟨m, st⟩ <;>
                    simpa [execute_script, hfr, hme, htf, hmp, hpd, hct] using hsf
            · rcases e with m | m <;>
                simp [execute_script, hfr, hme, htf, hmp, cacheSync, clearedCache]

lemma sync_log (le : LogEnv) (c : Cache) :
    cacheSync (get_abaqus_message_log le c).2.1 = true := by
  have hsf := sync_find le.fenv c
  rcases hfr : (find_abaqus_window_and_app le.fenv c).1 with m | ⟨a?, w?⟩
  · simpa [get_abaqus_message_log, hfr] using hsf
  · rcases w? with _ | w
    · simp [get_abaqus_message_log, hfr, cacheSync, clearedCache]
    · rcases hme : le.mainExists with m | b
      · simpa [get_abaqus_message_log, hfr, hme] using hsf
      · rcases b with _ | _
        · simp [get_abaqus_message_log, hfr, hme, cacheSync, clearedCache]
        · rcases hps : le.panes with m | ps
          · simp [get_abaqus_message_log, hfr, hme, hps, cacheSync, clearedCache]
          · rcases hph : paneHeuristic ps with m | ctl?
            · simp [get_abaqus_message_log, hfr, hme, hps, hph, cacheSync, clearedCache]
            · rcases ctl? with _ | ctl
              · rcases hes : le.edits with m | es
                · simp [get_abaqus_message_log, hfr, hme, hps, hph, hes, cacheSync,
                    clearedCache]
                · rcases heh : editHeuristic es with m | ctl?
                  · simp [get_abaqus_message_log, hfr, hme, hps, hph, hes, heh,
                      cacheSync, clearedCache]
                  · rcases ctl? with _ | ctl <;>
                      simpa [get_abaqus_message_log, hfr, hme, hps, hph, hes, heh]
                        using hsf
              · simpa [get_abaqus_message_log, hfr, hme, hps, hph] using hsf

/-- C1 (counterexample): the claim that neither operation ever lets an
internal automation exception propagate is false at a concrete input:
when the cached-window exists() check raises, both operations propagate
the exception to the caller, because find_abaqus_window_and_app is
invoked before the try blocks of either operation. -/
theorem c1_escape_counterexample :
    (execute_script eenvRaise cacheBoth).1 = Except.error "backend failure"
    ∧ (get_abaqus_message_log lenvRaise cacheBoth).1 = Except.error "backend failure" := by
  constructor <;> rfl

/-- C1 (amended): whenever the collaborator calls made during session
acquisition and the pre-try window existence check do not raise, each
of the two operations returns a plain string for every behaviour of the
remaining collaborator capabilities, including ones that raise. -/
theorem c1_boundary_amended (ee : ExecEnv) (le : LogEnv) (c d : Cache)
    (h1 : isOkE (find_abaqus_window_and_app ee.fenv c).1 = true)
    (h2 : isOkE ee.mainExists = true)
    (h3 : isOkE (find_abaqus_window_and_app le.fenv d).1 = true)
    (h4 : isOkE le.mainExists = true) :
    isOkE (execute_script ee c).1 = true
    ∧ isOkE (get_abaqus_message_log le d).1 = true :=
  ⟨exec_isOk ee c h1 h2, log_isOk le d h3 h4⟩

/-- C1 (witness): the amended boundary theorem applied to a concrete
successful environment. -/
theorem c1_witness :
    (isOkE (execute_script eenvOk cacheBoth).1 = true
    ∧ isOkE (get_abaqus_message_log lenvEmpty cacheBoth).1 = true) :=
  c1_boundary_amended eenvOk lenvEmpty cacheBoth cacheBoth (by rfl) (by rfl) (by rfl) (by rfl)

/-- C2: with a cached session whose two validity checks pass, the
locator returns the cached pair unchanged with an empty action trace in
particular without enumerating OS windows; when either check fails it
runs exactly the cold rediscovery path, whose trace always contains the
window enumeration. -/
theorem c2_cache_fast_path (env : FindEnv) (c : Cache) (a w : Nat)
    (ha : c.appCache = some a) (hw : c.winCache = some w) :
    (env.cachedExists = Except.ok true → env.cachedVisible = Except.ok true →
      find_abaqus_window_and_app env c = (Except.ok (some a, some w), c, []))
    ∧ (env.cachedExists = Except.ok false →
      find_abaqus_window_and_app env c = findCold env)
    ∧ (env.cachedExists = Except.ok true → env.cachedVisible = Except.ok false →
      find_abaqus_window_and_app env c = findCold env)
    ∧ Act.enumWindows ∈ (findCold env).2.2 := by
  refine ⟨?_, ?_, ?_, enum_mem_findCold env⟩
  · intro h1 h2
    simp [find_abaqus_window_and_app, ha, hw, h1, h2]
  · intro h1
    simp [find_abaqus_window_and_app, ha, hw, h1]
  · intro h1 h2
    simp [find_abaqus_window_and_app, ha, hw, h1, h2]

/-- C2 (witness): the fast-path theorem applied to a concrete valid
cached session. -/
theorem c2_witness :
    ((fenvFast.cachedExists = Except.ok true → fenvFast.cachedVisible = Except.ok true →
      find_abaqus_window_and_app fenvFast cacheBoth = (Except.ok (some 7, some 7), cacheBoth, []))
    ∧ (fenvFast.cachedExists = Except.ok false →
      find_abaqus_window_and_app fenvFast cacheBoth = findCold fenvFast)
    ∧ (fenvFast.cachedExists = Except.ok true → fenvFast.cachedVisible = Except.ok false →
      find_abaqus_window_and_app fenvFast cacheBoth = findCold fenvFast)
    ∧ Act.enumWindows ∈ (findCold fenvFast).2.2) :=
  c2_cache_fast_path fenvFast cacheBoth 7 7 (by rfl) (by rfl)

/-- C3: on a discovery attempt in which no candidate is selected, or the
connection raises, or the connected window fails the existence or
visibility check, the locator returns the (none, none) pair and leaves
the cache cleared; the discovery attempt of the locator with an empty
cache is exactly this cold path. -/
theorem c3_discovery_failure_clears (env : FindEnv) (wins : List OSWin)
    (he : env.enumRes = Except.ok wins)
    (h : selectCandidate env wins = Except.ok none
       ∨ (∃ w, selectCandidate env wins = Except.ok (some w) ∧
            ∃ m, env.connect w.hWnd = ConnectRes.err m)
       ∨ (∃ w ex vis, selectCandidate env wins = Except.ok (some w) ∧
            env.connect w.hWnd = ConnectRes.ok ex vis ∧ (ex && vis) = false)) :
    (findCold env).1 = Except.ok (none, none)
    ∧ (findCold env).2.1 = clearedCache
    ∧ find_abaqus_window_and_app env clearedCache = findCold env := by
  refine ?_
  have hmain : (findCold env).1 = Except.ok (none, none) ∧ (findCold env).2.1 = clearedCache := by
    rcases h with h | ⟨w, hs, m, hc⟩ | ⟨w, ex, vis, hs, hc, hev⟩
    · simp [findCold, he, h]
    · simp [findCold, he, hs, connectPhase, hc]
    · simp [findCold, he, hs, connectPhase, hc, hev]
  exact ⟨hmain.1, hmain.2, rfl⟩

/-- C3 (witness): the discovery-failure theorem applied to an
environment that enumerates no windows. -/
theorem c3_witness :
    ((findCold fenvFast).1 = Except.ok (none, none)
    ∧ (findCold fenvFast).2.1 = clearedCache
    ∧ find_abaqus_window_and_app fenvFast clearedCache = findCold fenvFast) :=
  c3_discovery_failure_clears fenvFast [] (by rfl) (Or.inl (by rfl))

/-- C4 (counterexample): the claim that every error-ending execution
nulls the cached session is false at a concrete input: with a populated
valid cache and all three dialog tiers rejecting, execute_script ends
in the dialog-not-found error string yet leaves both cache globals
populated. -/
theorem c4_stale_cache_counterexample :
    (execute_script eenvNoDialog cacheBoth).1 = Except.ok (failDialogMsg dialogNotFoundExn)
    ∧ (execute_script eenvNoDialog cacheBoth).2.1 = cacheBoth
    ∧ cacheBoth.appCache = some 7 ∧ cacheBoth.winCache = some 7 := by
  refine ⟨rfl, rfl, rfl, rfl⟩

/-- C4 (amended): the cached session is invalidated and nulled when
the initial window re-validation fails, when an exception (timeout or
other) reaches the outer handlers of execute_script from the
temporary-file or focus/menu phase, and when an exception reaches the
outer handler of get_abaqus_message_log from either descendant scan,
including the TypeError the raising height checks produce; but the
dialog-identification and control-interaction failure paths of
execute_script return their error string while leaving the cache
exactly as session acquisition left it. -/
theorem c4_error_invalidation_amended (env : ExecEnv) (le : LogEnv) (c d : Cache) :
    (∀ a w, (find_abaqus_window_and_app env.fenv c).1 = Except.ok (some a, some w) →
      env.mainExists = Except.ok false →
      (execute_script env c).1 = Except.ok notFoundMsgExec
      ∧ (execute_script env c).2.1 = clearedCache)
    ∧ (∀ a w e, (find_abaqus_window_and_app env.fenv c).1 = Except.ok (some a, some w) →
      env.mainExists = Except.ok true → env.tmpFile = Except.error e →
      (execute_script env c).2.1 = clearedCache)
    ∧ (∀ a w p e, (find_abaqus_window_and_app env.fenv c).1 = Except.ok (some a, some w) →
      env.mainExists = Except.ok true → env.tmpFile = Except.ok p →
      env.menuPhase = some e →
      (execute_script env c).2.1 = clearedCache)
    ∧ (∀ a w p, (find_abaqus_window_and_app env.fenv c).1 = Except.ok (some a, some w) →
      env.mainExists = Except.ok true → env.tmpFile = Except.ok p →
      env.menuPhase = none → pickDialog env = Except.ok none →
      (execute_script env c).1 = Except.ok (failDialogMsg dialogNotFoundExn)
      ∧ (execute_script env c).2.1 = (find_abaqus_window_and_app env.fenv c).2.1)
    ∧ (∀ a w p m, (find_abaqus_window_and_app env.fenv c).1 = Except.ok (some a, some w) →
      env.mainExists = Except.ok true → env.tmpFile = Except.ok p →
      env.menuPhase = none → pickDialog env = Except.error m →
      (execute_script env c).1 = Except.ok (failDialogMsg m)
      ∧ (execute_script env c).2.1 = (find_abaqus_window_and_app env.fenv c).2.1)
    ∧ (∀ a w p dd m b, (find_abaqus_window_and_app env.fenv c).1 = Except.ok (some a, some w) →
      env.mainExists = Except.ok true → env.tmpFile = Except.ok p →
      env.menuPhase = none → pickDialog env = Except.ok (some dd) →
      env.ctrl dd.id = CtrlOutcome.fail m b →
      (execute_script env c).1 = Except.ok (failInteractMsg m)
      ∧ (execute_script env c).2.1 = (find_abaqus_window_and_app env.fenv c).2.1)
    ∧ (∀ a w, (find_abaqus_window_and_app le.fenv d).1 = Except.ok (some a, some w) →
      le.mainExists = Except.ok false →
      (get_abaqus_message_log le d).1 = Except.ok notFoundMsgLog
      ∧ (get_abaqus_message_log le d).2.1 = clearedCache)
    ∧ (∀ a w m, (find_abaqus_window_and_app le.fenv d).1 = Except.ok (some a, some w) →
      le.mainExists = Except.ok true → le.panes = Except.error m →
      (get_abaqus_message_log le d).1 = Except.ok (logErrMsg m)
      ∧ (get_abaqus_message_log le d).2.1 = clearedCache)
    ∧ (∀ a w ps m, (find_abaqus_window_and_app le.fenv d).1 = Except.ok (some a, some w) →
      le.mainExists = Except.ok true → le.panes = Except.ok ps →
      paneHeuristic ps = Except.error m →
      (get_abaqus_message_log le d).1 = Except.ok (logErrMsg m)
      ∧ (get_abaqus_message_log le d).2.1 = clearedCache)
    ∧ (∀ a w ps m, (find_abaqus_window_and_app le.fenv d).1 = Except.ok (some a, some w) →
      le.mainExists = Except.ok true → le.panes = Except.ok ps →
      paneHeuristic ps = Except.ok none → le.edits = Except.error m →
      (get_abaqus_message_log le d).1 = Except.ok (logErrMsg m)
      ∧ (get_abaqus_message_log le d).2.1 = clearedCache)
    ∧ (∀ a w ps es m, (find_abaqus_window_and_app le.fenv d).1 = Except.ok (some a, some w) →
      le.mainExists = Except.ok true → le.panes = Except.ok ps →
      paneHeuristic ps = Except.ok none → le.edits = Except.ok es →
      editHeuristic es = Except.error m →
      (get_abaqus_message_log le d).1 = Except.ok (logErrMsg m)
      ∧ (get_abaqus_message_log le d).2.1 = clearedCache) := by
  refine ⟨fun a w hf hm => ?_, fun a w e hf hm ht => ?_, fun a w p e hf hm ht hmp => ?_,
    fun a w p hf hm ht hmp hpd => ?_, fun a w p m hf hm ht hmp hpd => ?_,
    fun a w p dd m b hf hm ht hmp hpd hct => ?_, fun a w hf hm => ?_,
    fun a w m hf hm hps => ?_, fun a w ps m hf hm hps hph => ?_,
    fun a w ps m hf hm hps hph hes => ?_, fun a w ps es m hf hm hps hph hes heh => ?_⟩
  · constructor <;> simp [execute_script, hf, hm]
  · rcases e with m | m <;> simp [execute_script, hf, hm, ht]
  · rcases e with m | m <;> simp [execute_script, hf, hm, ht, hmp]
  · constructor <;> simp [execute_script, hf, hm, ht, hmp, hpd]
  · constructor <;> simp [execute_script, hf, hm, ht, hmp, hpd]
  · constructor <;> simp [execute_script, hf, hm, ht, hmp, hpd, hct]
  · constructor <;> simp [get_abaqus_message_log, hf, hm]
  · constructor <;> simp [get_abaqus_message_log, hf, hm, hps]
  · constructor <;> simp [get_abaqus_message_log, hf, hm, hps, hph]
  · constructor <;> simp [get_abaqus_message_log, hf, hm, hps, hph, hes]
  · constructor <;> simp [get_abaqus_message_log, hf, hm, hps, hph, hes, heh]

/-- C4 (witness): the amended invalidation theorem applied to the
concrete no-dialog execute environment and the concrete raising-pane
log environment. -/
theorem c4_witness :
    ((∀ a w, (find_abaqus_window_and_app eenvNoDialog.fenv cacheBoth).1 = Except.ok (some a, some w) →
      eenvNoDialog.mainExists = Except.ok false →
      (execute_script eenvNoDialog cacheBoth).1 = Except.ok notFoundMsgExec
      ∧ (execute_script eenvNoDialog cacheBoth).2.1 = clearedCache)
    ∧ (∀ a w e, (find_abaqus_window_and_app eenvNoDialog.fenv cacheBoth).1 = Except.ok (some a, some w) →
      eenvNoDialog.mainExists = Except.ok true → eenvNoDialog.tmpFile = Except.error e →
      (execute_script eenvNoDialog cacheBoth).2.1 = clearedCache)
    ∧ (∀ a w p e, (find_abaqus_window_and_app eenvNoDialog.fenv cacheBoth).1 = Except.ok (some a, some w) →
      eenvNoDialog.mainExists = Except.ok true → eenvNoDialog.tmpFile = Except.ok p →
      eenvNoDialog.menuPhase = some e →
      (execute_script eenvNoDialog cacheBoth).2.1 = clearedCache)
    ∧ (∀ a w p, (find_abaqus_window_and_app eenvNoDialog.fenv cacheBoth).1 = Except.ok (some a, some w) →
      eenvNoDialog.mainExists = Except.ok true → eenvNoDialog.tmpFile = Except.ok p →
      eenvNoDialog.menuPhase = none → pickDialog eenvNoDialog = Except.ok none →
      (execute_script eenvNoDialog cacheBoth).1 = Except.ok (failDialogMsg dialogNotFoundExn)
      ∧ (execute_script eenvNoDialog cacheBoth).2.1 =
          (find_abaqus_window_and_app eenvNoDialog.fenv cacheBoth).2.1)
    ∧ (∀ a w p m, (find_abaqus_window_and_app eenvNoDialog.fenv cacheBoth).1 = Except.ok (some a, some w) →
      eenvNoDialog.mainExists = Except.ok true → eenvNoDialog.tmpFile = Except.ok p →
      eenvNoDialog.menuPhase = none → pickDialog eenvNoDialog = Except.error m →
      (execute_script eenvNoDialog cacheBoth).1 = Except.ok (failDialogMsg m)
      ∧ (execute_script eenvNoDialog cacheBoth).2.1 =
          (find_abaqus_window_and_app eenvNoDialog.fenv cacheBoth).2.1)
    ∧ (∀ a w p dd m b, (find_abaqus_window_and_app eenvNoDialog.fenv cacheBoth).1 = Except.ok (some a, some w) →
      eenvNoDialog.mainExists = Except.ok true → eenvNoDialog.tmpFile = Except.ok p →
      eenvNoDialog.menuPhase = none → pickDialog eenvNoDialog = Except.ok (some dd) →
      eenvNoDialog.ctrl dd.id = CtrlOutcome.fail m b →
      (execute_script eenvNoDialog cacheBoth).1 = Except.ok (failInteractMsg m)
      ∧ (execute_script eenvNoDialog cacheBoth).2.1 =
          (find_abaqus_window_and_app eenvNoDialog.fenv cacheBoth).2.1)
    ∧ (∀ a w, (find_abaqus_window_and_app lenvBigPane.fenv cacheBoth).1 = Except.ok (some a, some w) →
      lenvBigPane.mainExists = Except.ok false →
      (get_abaqus_message_log lenvBigPane cacheBoth).1 = Except.ok notFoundMsgLog
      ∧ (get_abaqus_message_log lenvBigPane cacheBoth).2.1 = clearedCache)
    ∧ (∀ a w m, (find_abaqus_window_and_app lenvBigPane.fenv cacheBoth).1 = Except.ok (some a, some w) →
      lenvBigPane.mainExists = Except.ok true → lenvBigPane.panes = Except.error m →
      (get_abaqus_message_log lenvBigPane cacheBoth).1 = Except.ok (logErrMsg m)
      ∧ (get_abaqus_message_log lenvBigPane cacheBoth).2.1 = clearedCache)
    ∧ (∀ a w ps m, (find_abaqus_window_and_app lenvBigPane.fenv cacheBoth).1 = Except.ok (some a, some w) →
      lenvBigPane.mainExists = Except.ok true → lenvBigPane.panes = Except.ok ps →
      paneHeuristic ps = Except.error m →
      (get_abaqus_message_log lenvBigPane cacheBoth).1 = Except.ok (logErrMsg m)
      ∧ (get_abaqus_message_log lenvBigPane cacheBoth).2.1 = clearedCache)
    ∧ (∀ a w ps m, (find_abaqus_window_and_app lenvBigPane.fenv cacheBoth).1 = Except.ok (some a, some w) →
      lenvBigPane.mainExists = Except.ok true → lenvBigPane.panes = Except.ok ps →
      paneHeuristic ps = Except.ok none → lenvBigPane.edits = Except.error m →
      (get_abaqus_message_log lenvBigPane cacheBoth).1 = Except.ok (logErrMsg m)
      ∧ (get_abaqus_message_log lenvBigPane cacheBoth).2.1 = clearedCache)
    ∧ (∀ a w ps es m, (find_abaqus_window_and_app lenvBigPane.fenv cacheBoth).1 = Except.ok (some a, some w) →
      lenvBigPane.mainExists = Except.ok true → lenvBigPane.panes = Except.ok ps →
      paneHeuristic ps = Except.ok none → lenvBigPane.edits = Except.ok es →
      editHeuristic es = Except.error m →
      (get_abaqus_message_log lenvBigPane cacheBoth).1 = Except.ok (logErrMsg m)
      ∧ (get_abaqus_message_log lenvBigPane cacheBoth).2.1 = clearedCache)) :=
  c4_error_invalidation_amended eenvNoDialog lenvBigPane cacheBoth cacheBoth

/-- C5: when no process lookup raises an uncaught exception, the
selection loop returns exactly the first enumerated window whose title
carries the fixed prefix and whose process name passes the marker test,
skipping every other candidate; the cold path then connects to exactly
that window and fails only when no candidate remains. -/
theorem c5_first_match_discovery (env : FindEnv) (wins : List OSWin)
    (hnh : ∀ w ∈ wins, isHard (env.procOf w.hWnd) = false) :
    selectCandidate env wins = Except.ok (wins.find? (goodWin env))
    ∧ (env.enumRes = Except.ok wins →
        (wins.find? (goodWin env) = none →
          findCold env = (Except.ok (none, none), clearedCache, [Act.enumWindows]))
        ∧ ∀ w, wins.find? (goodWin env) = some w → findCold env = connectPhase env w) := by
  have hs := selectCandidate_no_hard env wins hnh
  refine ⟨hs, fun he => ⟨fun hn => ?_, fun w hw => ?_⟩⟩
  · rw [hn] at hs
    simp [findCold, he, hs]
  · rw [hw] at hs
    simp [findCold, he, hs]

/-- C5 (witness): the first-match theorem applied to a concrete window
list with a wrong-title candidate, a wrong-process candidate and a
conforming candidate. -/
theorem c5_witness :
    (selectCandidate fenvDiscover [wOtherTitle, wWrongProc, wGood] =
      Except.ok ([wOtherTitle, wWrongProc, wGood].find? (goodWin fenvDiscover))
    ∧ (fenvDiscover.enumRes = Except.ok [wOtherTitle, wWrongProc, wGood] →
        ([wOtherTitle, wWrongProc, wGood].find? (goodWin fenvDiscover) = none →
          findCold fenvDiscover = (Except.ok (none, none), clearedCache, [Act.enumWindows]))
        ∧ ∀ w, [wOtherTitle, wWrongProc, wGood].find? (goodWin fenvDiscover) = some w →
            findCold fenvDiscover = connectPhase fenvDiscover w)) :=
  c5_first_match_discovery fenvDiscover [wOtherTitle, wWrongProc, wGood] (by decide)

/-- C6: the submission dialog is identified by the three tiers in
order, each accepted by the exists-and-title test, first success wins;
and when the tiers leave no dialog, execute_script returns the
dialog-not-found diagnostic and its whole action trace contains no
control interaction. -/
theorem c6_dialog_tiers (env : ExecEnv) (c : Cache) (a w : Nat) (p : String)
    (d1 d2 : Dlg) (ds : List Dlg)
    (hf : (find_abaqus_window_and_app env.fenv c).1 = Except.ok (some a, some w))
    (hm : env.mainExists = Except.ok true)
    (ht : env.tmpFile = Except.ok p)
    (hmenu : env.menuPhase = none)
    (h1 : env.topWindow = Except.ok d1)
    (h2 : env.activeWindow = Except.ok d2)
    (h3 : env.childWindows = Except.ok ds) :
    (dialogAccept d1 = true → pickDialog env = Except.ok (some d1))
    ∧ (dialogAccept d1 = false → dialogAccept d2 = true →
        pickDialog env = Except.ok (some d2))
    ∧ (dialogAccept d1 = false → dialogAccept d2 = false →
        pickDialog env = Except.ok (ds.find? dialogAccept))
    ∧ (pickDialog env = Except.ok none →
        (execute_script env c).1 = Except.ok (failDialogMsg dialogNotFoundExn)
        ∧ ∀ x ∈ (execute_script env c).2.2, isCtrlAct x = false) := by
  refine ⟨fun ha1 => ?_, fun ha1 ha2 => ?_, fun ha1 ha2 => ?_, fun hpd => ?_⟩
  · simp [pickDialog, h1, ha1]
  · simp [pickDialog, h1, h2, ha1, ha2]
  · simp [pickDialog, h1, h2, h3, ha1, ha2]
  · have hres : execute_script env c =
        (Except.ok (failDialogMsg dialogNotFoundExn),
          (find_abaqus_window_and_app env.fenv c).2.1,
          (find_abaqus_window_and_app env.fenv c).2.2 ++ [Act.menuSelect] ++
            finallyActs env p) := by
      simp [execute_script, hf, hm, ht, hmenu, hpd]
    refine ⟨by rw [hres], ?_⟩
    intro x hx
    rw [hres] at hx
    simp only [List.mem_append, List.mem_singleton] at hx
    rcases hx with (hx | hx) | hx
    · exact no_ctrl_find env.fenv c x hx
    · simp [hx, isCtrlAct]
    · unfold finallyActs at hx
      by_cases hft : env.fileStillThere = true
      · simp [hft] at hx
        simp [hx, isCtrlAct]
      · simp [hft] at hx

/-- C6 (witness): the dialog-tier theorem applied to the concrete
environment in which every tier rejects. -/
theorem c6_witness :
    ((dialogAccept { ex := true, title := "Abaqus/CAE 2024", id := 1 } = true →
        pickDialog eenvNoDialog =
          Except.ok (some { ex := true, title := "Abaqus/CAE 2024", id := 1 }))
    ∧ (dialogAccept { ex := true, title := "Abaqus/CAE 2024", id := 1 } = false →
        dialogAccept { ex := true, title := "Abaqus/CAE 2024", id := 1 } = true →
        pickDialog eenvNoDialog =
          Except.ok (some { ex := true, title := "Abaqus/CAE 2024", id := 1 }))
    ∧ (dialogAccept { ex := true, title := "Abaqus/CAE 2024", id := 1 } = false →
        dialogAccept { ex := true, title := "Abaqus/CAE 2024", id := 1 } = false →
        pickDialog eenvNoDialog = Except.ok (List.find? dialogAccept []))
    ∧ (pickDialog eenvNoDialog = Except.ok none →
        (execute_script eenvNoDialog cacheBoth).1 = Except.ok (failDialogMsg dialogNotFoundExn)
        ∧ ∀ x ∈ (execute_script eenvNoDialog cacheBoth).2.2, isCtrlAct x = false)) :=
  c6_dialog_tiers eenvNoDialog cacheBoth 7 7 "C:/tmp/s.py"
    { ex := true, title := "Abaqus/CAE 2024", id := 1 }
    { ex := true, title := "Abaqus/CAE 2024", id := 1 } []
    (by rfl) (by rfl) (by rfl) (by rfl) (by rfl) (by rfl) (by rfl)

/-- C7: whenever the temporary script file was created and still exists
on disk at cleanup time, every run of execute_script, on the success
path and on every failure path inside the try block alike, performs the
removal of exactly that path before returning. -/
theorem c7_temp_file_cleanup (env : ExecEnv) (c : Cache) (a w : Nat) (p : String)
    (hf : (find_abaqus_window_and_app env.fenv c).1 = Except.ok (some a, some w))
    (hm : env.mainExists = Except.ok true)
    (ht : env.tmpFile = Except.ok p)
    (hex : env.fileStillThere = true) :
    Act.removeTemp p ∈ (execute_script env c).2.2 := by
  have hfin : finallyActs env p = [Act.removeTemp p] := by
    simp [finallyActs, hex]
  rcases hmp : env.menuPhase with _ | e
  · rcases hpd : pickDialog env with m | d?
    · simp [execute_script, hf, hm, ht, hmp, hpd, hfin]
    · rcases d? with _ | d
      · simp [execute_script, hf, hm, ht, hmp, hpd, hfin]
      · rcases hct : env.ctrl d.id with _ | ⟨m, st⟩
        · simp [execute_script, hf, hm, ht, hmp, hpd, hct, hfin]
        · simp [execute_script, hf, hm, ht, hmp, hpd, hct, hfin]
  · rcases e with m | m <;> simp [execute_script, hf, hm, ht, hmp, hfin]

/-- C7 (witness): the cleanup theorem applied to the concrete
successful environment. -/
theorem c7_witness :
    Act.removeTemp "C:/tmp/s.py" ∈ (execute_script eenvOk cacheBoth).2.2 :=
  c7_temp_file_cleanup eenvOk cacheBoth 7 7 "C:/tmp/s.py" (by rfl) (by rfl) (by rfl) (by rfl)

/-- C8: the log-text flattening drops empty line-groups and empty
lines, joins the kept lines with single newline separators and strips
the final result, and the nested input of the specification scenario
flattens to the expected three-line string. -/
theorem c8_flatten_spec :
    (∀ ts : List (List String),
      flattenTexts ts =
        strStrip (joinSep "\n"
          (((ts.filter (fun g => !g.isEmpty)).flatten).filter (fun l => !(l == "")))))
    ∧ flattenTexts [["Line 1", "Line 2"], ["", "Line 3"]] = "Line 1\nLine 2\nLine 3" := by
  constructor
  · intro ts
    rw [flattenTexts, flattenLines_eq]
  · rfl

/-- C9 (code bug): the claim describes the intended pane filter, which
the repo test also encodes, but at source line 273 the uncalled
rectangle().height bound method is compared with 100, so on a pane
satisfying every documented filter (visible, height 150, width 300,
FXWindow class marker, non-blank text) the scan raises the TypeError
instead of selecting the pane; the outer handler converts it to the
error string and clears the cache, and no pane is ever selected. -/
theorem c9_height_method_bug :
    paneHeuristic [bigPane] = Except.error heightTypeError
    ∧ (get_abaqus_message_log lenvBigPane cacheBoth).1 =
        Except.ok (logErrMsg heightTypeError)
    ∧ (get_abaqus_message_log lenvBigPane cacheBoth).2.1 = clearedCache := by
  refine ⟨rfl, rfl, rfl⟩

/-- C10: the module starts with both cache globals cleared, and after
any run of the locator or of either operation, in any environment and
from any cache state, the two cache globals are again either both set
or both cleared, so a state with exactly one populated is unreachable. -/
theorem c10_cache_globals_sync (fe : FindEnv) (ee : ExecEnv) (le : LogEnv) (c : Cache) :
    cacheSync clearedCache = true
    ∧ cacheSync (find_abaqus_window_and_app fe c).2.1 = true
    ∧ cacheSync (execute_script ee c).2.1 = true
    ∧ cacheSync (get_abaqus_message_log le c).2.1 = true :=
  ⟨rfl, sync_find fe c, sync_exec ee c, sync_log le c⟩
